import Mathlib

/-!
Verification development for the NEMO NMEA2000 research platform.

This file gives a shallow embedding, in Lean, of the parts of the NEMO
source that the specification's claims are about:

* the PGN schema registry (`PGN_Helpers.cpp` / `PGN_Helpers.h`);
* the network state tracker (`N2K_Monitor.cpp`, `N2K_PGNParser.cpp`);
* the attack controller: DoS / address-claim spam (`Attack_Spam.cpp`),
  impersonation (`Attack_Impersonate.cpp`, `Attack_Spoof.cpp`,
  `Attack_FieldRange.cpp`, `Attack_Controller.cpp`).

Machine integers are modelled as `Nat` with explicit reductions modulo
`2 ^ 32` (Teensy `unsigned long`) or `2 ^ 64` (`uint64_t`) where the C
code relies on wrap-around.  `float`/`double` arithmetic is idealised as
`ℚ`.  Calls into the external NMEA2000 library (the `ParseN2k…` /
`SetN2k…` functions) are abstracted as oracle parameters, since that
library is an external collaborator of the repository; everything else
is translated from the repository's own code.

`std::map` values are modelled as association lists (`mfind` / `mset` /
`mupd` below mirror `find`, `operator[]` assignment and in-place field
update of an existing entry).
-/

/-- 2 ^ 32, the modulus of the Teensy `unsigned long` / `millis()` clock. -/
def U32 : Nat := 4294967296

/-- 2 ^ 64, the modulus of `uint64_t`. -/
def U64 : Nat := 18446744073709551616

/-- Wrap-around subtraction `a - b` on 32-bit unsigned values, as C computes
`currentTime - lastActivity` on `unsigned long`. -/
def sub32 (a b : Nat) : Nat := (a + (U32 - b % U32)) % U32

/-- `STALE_TIMEOUT_MS` from `constants.h`. -/
def STALE_TIMEOUT_MS : Nat := 60000

/-- `MAX_IMP_FIELDS` from `constants.h`: capacity of the per-field lock
arrays of the impersonation engine. -/
def MAX_IMP_FIELDS : Nat := 16

/-- `std::map::find`: first value stored under key `a`. -/
def mfind {α : Type} : List (Nat × α) → Nat → Option α
  | [], _ => none
  | (k, v) :: t, a => if k = a then some v else mfind t a

/-- `std::map` insert-or-assign (`m[k] = v`): replace the value under an
existing key, append a fresh entry otherwise. -/
def mset {α : Type} : List (Nat × α) → Nat → α → List (Nat × α)
  | [], a, v => [(a, v)]
  | (k, w) :: t, a, v => if k = a then (k, v) :: t else (k, w) :: mset t a v

/-- In-place update of the value stored under an existing key
(`m[k].field = …` on a key known to be present); a no-op when the key is
absent. -/
def mupd {α : Type} (f : α → α) : List (Nat × α) → Nat → List (Nat × α)
  | [], _ => []
  | (k, w) :: t, a => if k = a then (k, f w) :: t else (k, w) :: mupd f t a

theorem mfind_mset_self {α : Type} (l : List (Nat × α)) (a : Nat) (v : α) :
    mfind (mset l a v) a = some v := by
  induction l with
  | nil => simp [mset, mfind]
  | cons h t ih =>
      obtain ⟨k, w⟩ := h
      by_cases hk : k = a <;> simp [mset, mfind, hk, ih]

theorem mfind_mset_ne {α : Type} (l : List (Nat × α)) (a b : Nat) (v : α)
    (hab : a ≠ b) : mfind (mset l a v) b = mfind l b := by
  induction l with
  | nil => simp [mset, mfind, hab]
  | cons h t ih =>
      obtain ⟨k, w⟩ := h
      by_cases hk : k = a
      · subst hk; simp [mset, mfind, hab]
      · by_cases hkb : k = b <;> simp [mset, mfind, hk, hkb, ih, Ne.symm hab]

theorem mfind_mupd_self {α : Type} (f : α → α) (l : List (Nat × α)) (a : Nat) :
    mfind (mupd f l a) a = (mfind l a).map f := by
  induction l with
  | nil => simp [mupd, mfind]
  | cons h t ih =>
      obtain ⟨k, w⟩ := h
      by_cases hk : k = a <;> simp [mupd, mfind, hk, ih]

theorem mfind_mupd_ne {α : Type} (f : α → α) (l : List (Nat × α)) (a b : Nat)
    (hab : a ≠ b) : mfind (mupd f l a) b = mfind l b := by
  induction l with
  | nil => simp [mupd, mfind]
  | cons h t ih =>
      obtain ⟨k, w⟩ := h
      by_cases hk : k = a
      · subst hk; simp [mupd, mfind, hab]
      · by_cases hkb : k = b <;> simp [mupd, mfind, hk, hkb, ih, Ne.symm hab]

/-! ## PGN Schema Registry (`PGN_Helpers.h` / `PGN_Helpers.cpp`) -/

/-- `PGNFieldDef`: one editable field of a PGN (name, valid range, unit).
`float` bounds are idealised as `ℚ`. -/
structure PGNFieldDef where
  name : String
  minValue : ℚ
  maxValue : ℚ
  unit : String
deriving DecidableEq, Repr

/-- `PGNDef`: a PGN available for impersonation, with its field table. -/
structure PGNDef where
  pgn : Nat
  name : String
  shortName : String
  fieldCount : Nat
  fields : List PGNFieldDef
deriving DecidableEq, Repr

/-- `IMPERSONATABLE_PGN_DEFS`: the static registry table. -/
def IMPERSONATABLE_PGN_DEFS : List PGNDef := [
  ⟨127245, "Rudder", "Rudder", 1, [⟨"Rudder", -45, 45, "deg"⟩]⟩,
  ⟨127250, "Vessel Heading", "Heading", 3,
    [⟨"Heading", 0, 360, "deg"⟩, ⟨"Deviation", -30, 30, "deg"⟩,
     ⟨"Variation", -30, 30, "deg"⟩]⟩,
  ⟨127251, "Rate of Turn", "Rate of Turn", 1, [⟨"Rate", -180, 180, "deg/min"⟩]⟩,
  ⟨127252, "Heave", "Heave", 2, [⟨"Heave", -10, 10, "m"⟩, ⟨"Delay", 0, 10, "s"⟩]⟩,
  ⟨127257, "Attitude", "Attitude", 3,
    [⟨"Yaw", -180, 180, "deg"⟩, ⟨"Pitch", -90, 90, "deg"⟩,
     ⟨"Roll", -180, 180, "deg"⟩]⟩,
  ⟨127258, "Magnetic Variation", "Mag Variation", 1, [⟨"Variation", -30, 30, "deg"⟩]⟩,
  ⟨127488, "Engine Parameters Rapid", "Engine Rapid", 2,
    [⟨"RPM", 0, 8000, "rpm"⟩, ⟨"Boost", 0, 500, "kPa"⟩]⟩,
  ⟨127489, "Engine Parameters Dynamic", "Engine Dynamic", 7,
    [⟨"Oil Press", 0, 1000, "kPa"⟩, ⟨"Oil Temp", 233, 400, "K"⟩,
     ⟨"Coolant", 233, 400, "K"⟩, ⟨"Alt Volt", 0, 32, "V"⟩,
     ⟨"Fuel Rate", 0, 200, "L/h"⟩, ⟨"Hours", 0, 100000, "h"⟩,
     ⟨"Load", 0, 100, "%"⟩]⟩,
  ⟨127493, "Transmission Parameters", "Transmission", 3,
    [⟨"Gear", 0, 3, ""⟩, ⟨"Oil Press", 0, 1000, "kPa"⟩, ⟨"Oil Temp", 233, 400, "K"⟩]⟩,
  ⟨127497, "Trip Fuel Parameters", "Trip Fuel", 2,
    [⟨"Trip Fuel", 0, 10000, "L"⟩, ⟨"Avg Rate", 0, 200, "L/h"⟩]⟩,
  ⟨127505, "Fluid Level", "Fluid Level", 1, [⟨"Level", 0, 100, "%"⟩]⟩,
  ⟨127506, "DC Detailed Status", "DC Status", 3,
    [⟨"SOC", 0, 100, "%"⟩, ⟨"Health", 0, 100, "%"⟩, ⟨"Capacity", 0, 1000, "Ah"⟩]⟩,
  ⟨127507, "Charger Status", "Charger", 2,
    [⟨"State", 0, 7, ""⟩, ⟨"Enabled", 0, 1, ""⟩]⟩,
  ⟨127508, "Battery Status", "Battery", 2,
    [⟨"Voltage", 0, 32, "V"⟩, ⟨"Current", -500, 500, "A"⟩]⟩,
  ⟨128000, "Leeway", "Leeway", 1, [⟨"Leeway", -30, 30, "deg"⟩]⟩,
  ⟨128259, "Speed Water Referenced", "Speed Water", 2,
    [⟨"Water Spd", 0, 20, "m/s"⟩, ⟨"Ground Spd", 0, 20, "m/s"⟩]⟩,
  ⟨128267, "Water Depth", "Water Depth", 2,
    [⟨"Depth", 0, 200, "m"⟩, ⟨"Offset", -10, 10, "m"⟩]⟩,
  ⟨129025, "Position Rapid Update", "Position", 2,
    [⟨"Latitude", -90, 90, "deg"⟩, ⟨"Longitude", -180, 180, "deg"⟩]⟩,
  ⟨129026, "COG & SOG Rapid Update", "COG & SOG", 2,
    [⟨"COG", 0, 360, "deg"⟩, ⟨"SOG", 0, 20, "m/s"⟩]⟩,
  ⟨130306, "Wind Data", "Wind Data", 2,
    [⟨"Wind Spd", 0, 50, "m/s"⟩, ⟨"Wind Ang", 0, 360, "deg"⟩]⟩,
  ⟨130310, "Environmental Parameters Outside", "Env Outside", 3,
    [⟨"Water Temp", 233, 333, "K"⟩, ⟨"Air Temp", 233, 333, "K"⟩,
     ⟨"Pressure", 80000, 110000, "Pa"⟩]⟩,
  ⟨130311, "Environmental Parameters", "Env Params", 3,
    [⟨"Temp", 233, 333, "K"⟩, ⟨"Humidity", 0, 100, "%"⟩,
     ⟨"Pressure", 80000, 110000, "Pa"⟩]⟩,
  ⟨130312, "Temperature", "Temperature", 2,
    [⟨"Actual", 233, 400, "K"⟩, ⟨"Set", 233, 400, "K"⟩]⟩,
  ⟨130313, "Humidity", "Humidity", 2,
    [⟨"Actual", 0, 100, "%"⟩, ⟨"Set", 0, 100, "%"⟩]⟩,
  ⟨130314, "Pressure", "Pressure", 1, [⟨"Pressure", 80000, 110000, "Pa"⟩]⟩,
  ⟨130316, "Temperature Extended Range", "Temp Extended", 2,
    [⟨"Actual", 233, 400, "K"⟩, ⟨"Set", 233, 400, "K"⟩]⟩,
  ⟨130576, "Trim Tab Status", "Trim Tab", 2,
    [⟨"Port", -100, 100, "%"⟩, ⟨"Starboard", -100, 100, "%"⟩]⟩,
  ⟨130577, "Direction Data", "Direction", 5,
    [⟨"COG", 0, 360, "deg"⟩, ⟨"SOG", 0, 20, "m/s"⟩, ⟨"Heading", 0, 360, "deg"⟩,
     ⟨"Set", 0, 360, "deg"⟩, ⟨"Drift", 0, 10, "m/s"⟩]⟩]

/-- `getPGNDef`: linear search of the registry table. -/
def getPGNDef (pgn : Nat) : Option PGNDef :=
  IMPERSONATABLE_PGN_DEFS.find? (fun d => d.pgn = pgn)

/-- `getPGNFieldCount`: field count of a registry PGN, `0` if unknown. -/
def getPGNFieldCount (pgn : Nat) : Nat :=
  match getPGNDef pgn with
  | some d => d.fieldCount
  | none => 0

/-- `getPGNField`: field definition at `fieldIndex`, bounds-checked against
`fieldCount`; `none` if the PGN is unknown or the index out of range. -/
def getPGNField (pgn : Nat) (fieldIndex : Nat) : Option PGNFieldDef :=
  match getPGNDef pgn with
  | some d => if fieldIndex < d.fieldCount then d.fields.get? fieldIndex else none
  | none => none

/-- `getPGNFieldRange`: `(min, max)` of a field, `(0, 100)` as the fallback
when the PGN or the index is unknown. -/
def getPGNFieldRange (pgn : Nat) (fieldIndex : Nat) : ℚ × ℚ :=
  match getPGNField pgn fieldIndex with
  | some f => (f.minValue, f.maxValue)
  | none => (0, 100)

/-- `isImpersonatablePGN`: a schema entry exists for this PGN. -/
def isImpersonatablePGN (pgn : Nat) : Bool :=
  (getPGNDef pgn).isSome

/-- `Attack_Controller::getFieldRange` delegates to `getPGNFieldRange`. -/
def getFieldRange (pgn : Nat) (fieldIndex : Nat) : ℚ × ℚ :=
  getPGNFieldRange pgn fieldIndex

/-! ## Network State Tracker (`N2K_Monitor.h`, `N2K_Monitor.cpp`, `N2K_PGNParser.cpp`) -/

/-- A decoded bus message as delivered by the NMEA2000 library callback
(`tN2kMsg`): PGN, source address, priority and the (already reassembled)
payload bytes. -/
structure N2kMsg where
  PGN : Nat
  Source : Nat
  Priority : Nat
  Data : List Nat
  DataLen : Nat
deriving DecidableEq, Repr

/-- `PGNField`: one parsed, display-ready field. -/
structure PGNField where
  name : String
  value : String
  unit : String
deriving DecidableEq, Repr

/-- `PGNData`: stored record for one (device, PGN) slot. -/
structure PGNData where
  pgn : Nat
  name : String
  lastUpdate : Nat
  fields : List PGNField
  rawData : List Nat
  dataLen : Nat
deriving DecidableEq, Repr

/-- `DeviceInfo`: one tracked device. -/
structure DeviceInfo where
  sourceAddress : Nat
  name : String
  lastSeen : Nat
  lastHeartbeat : Nat
  pgns : List (Nat × PGNData)
deriving DecidableEq, Repr

/-- `N2K_Monitor` state: device directory, discovery-ordered address list,
cleanup switch and throttle timestamp.  (The legacy `detectedPGNs`
side-table is not modelled; no claim concerns it.) -/
structure MonitorState where
  devices : List (Nat × DeviceInfo)
  deviceList : List Nat
  staleCleanupEnabled : Bool
  lastCleanupCheck : Nat
deriving DecidableEq, Repr

/-- The monitor state built by the `N2K_Monitor` constructor. -/
def initMonitorState : MonitorState :=
  ⟨[], [], false, 0⟩

/-- Product-information fields decoded by the external library call
`ParseN2kPGN126996`; the monitor only consumes the model identifier. -/
structure ProductInfo where
  modelID : String
deriving DecidableEq, Repr

/-- Oracle abstracting the external NMEA2000 library's `ParseN2k…` decode
routines, which are not part of this repository:

* `fields msg`: for a PGN handled by one of the library-backed `case`
  branches of `N2K_Monitor::parsePGNData`, the field rows that branch
  pushes when the library parse succeeds (`some fs`), or `none` when the
  library parse returns `false` (the branch then pushes nothing);
* `prodInfo msg`: result of `ParseN2kPGN126996` (`none` = parse failed). -/
structure LibParsers where
  fields : N2kMsg → Option (List PGNField)
  prodInfo : N2kMsg → Option ProductInfo

/-- The PGNs of the `parsePGNData` switch whose branch calls an external
`ParseN2k…` library routine (every `case` label except the directly
bit-parsed 60928 and 126993 and the raw-hex `default`). -/
def LIB_PARSED_PGNS : List Nat :=
  [127250, 127251, 127257, 127258, 127245, 127488, 127489, 127508, 127505,
   128259, 128267, 129025, 129026, 129029, 130306, 130310, 130311, 130312,
   130313, 130314, 126992, 127493, 128275, 126996, 127252, 127497, 127501,
   127506, 127507, 127513, 127751, 128000, 129033, 129038, 129039, 129283,
   129284, 129539, 129540, 129794, 129809, 129810, 130316, 130576, 130577]

/-- `N2K_Monitor::getPGNName`: human-readable PGN label (the subset of the
lookup table exercised by this development; every other PGN falls through
to the `"PGN <n>"` default exactly as in the source). -/
def monGetPGNName (pgn : Nat) : String :=
  if pgn = 60928 then "ISO Addr Claim"
  else if pgn = 126992 then "System Time"
  else if pgn = 126993 then "Heartbeat"
  else if pgn = 126996 then "Product Info"
  else if pgn = 127245 then "Rudder"
  else if pgn = 127250 then "Vessel Heading"
  else if pgn = 127251 then "Rate of Turn"
  else if pgn = 129025 then "Position Rapid"
  else if pgn = 129026 then "COG/SOG Rapid"
  else if pgn = 130306 then "Wind Data"
  else "PGN " ++ toString pgn

/-- The 64-bit NAME assembled from the first 8 payload bytes of an ISO
address claim, little endian (`name |= Data[i] << (i*8)`). -/
def nameFromBytes (data : List Nat) : Nat :=
  (((((((data.getD 0 0) |||
    ((data.getD 1 0) <<< 8)) |||
    ((data.getD 2 0) <<< 16)) |||
    ((data.getD 3 0) <<< 24)) |||
    ((data.getD 4 0) <<< 32)) |||
    ((data.getD 5 0) <<< 40)) |||
    ((data.getD 6 0) <<< 48)) |||
    ((data.getD 7 0) <<< 56)

/-- The function-code suffix appended by `handleN2kMessage` when deriving a
provisional device name from an ISO address claim:
`>= 130 && <= 140 → " Nav"`, `else >= 140 && <= 160 → " Eng"`,
`else >= 170 && <= 180 → " Pwr"`. -/
def claimSuffix (devFunction : Nat) : String :=
  if 130 ≤ devFunction ∧ devFunction ≤ 140 then " Nav"
  else if 140 ≤ devFunction ∧ devFunction ≤ 160 then " Eng"
  else if 170 ≤ devFunction ∧ devFunction ≤ 180 then " Pwr"
  else ""

/-- The provisional device name `"Mfr<code><suffix>"` derived from a NAME:
manufacturer code = bits 21–31, device function = bits 40–47. -/
def claimDerivedName (nm : Nat) : String :=
  "Mfr" ++ toString ((nm >>> 21) &&& 2047) ++ claimSuffix ((nm >>> 40) &&& 255)

/-- The field rows pushed by the directly bit-parsed `case 60928` branch of
`parsePGNData` (industry-group display abbreviated; only presence and
count of these rows matter to any claim). -/
def isoAddressClaimFields (nm : Nat) : List PGNField :=
  let uniqueNumber := nm &&& 2097151
  let mfrCode := (nm >>> 21) &&& 2047
  let devInstance := (nm >>> 32) &&& 255
  let devFunction := (nm >>> 40) &&& 255
  let devClass := (nm >>> 49) &&& 127
  let sysInstance := (nm >>> 56) &&& 15
  let indGroup := (nm >>> 60) &&& 7
  [⟨"Mfr Code", toString mfrCode, ""⟩,
   ⟨"Unique#", toString uniqueNumber, ""⟩,
   ⟨"Dev Func", toString devFunction, ""⟩,
   ⟨"Dev Class", toString devClass, ""⟩,
   ⟨"Instance", toString devInstance, ""⟩,
   ⟨"Industry", toString indGroup, ""⟩,
   ⟨"Sys Inst", toString sysInstance, ""⟩]

/-- The field rows pushed by the directly bit-parsed `case 126993`
(heartbeat) branch of `parsePGNData`. -/
def heartbeatFields (data : List Nat) : List PGNField :=
  let interval := (data.getD 0 0) ||| ((data.getD 1 0) <<< 8) |||
    ((data.getD 2 0) <<< 16) ||| ((data.getD 3 0) <<< 24)
  let seqCounter := (data.getD 4 0) &&& 15
  let ctrl1 := (data.getD 5 0) &&& 3
  let ctrl2 := ((data.getD 5 0) >>> 2) &&& 3
  (if interval ≠ 4294967295 then
    [PGNField.mk "Interval" (toString interval) "sec"] else []) ++
  [⟨"Sequence", toString seqCounter, ""⟩,
   ⟨"Ctrl1", toString ctrl1, ""⟩,
   ⟨"Ctrl2", toString ctrl2, ""⟩]

/-- Lower-case hex rendering of a byte, zero-padded to two digits as the
`default` branch of `parsePGNData` prints it. -/
def hexByte (b : Nat) : String :=
  (if b < 16 then "0" else "") ++ (Nat.toDigits 16 b).asString

/-- Space-separated hex of the bytes in positions `[lo, hi)`. -/
def hexRow (data : List Nat) (lo hi : Nat) : String :=
  String.intercalate " " (((data.take hi).drop lo).map hexByte)

/-- The raw-hex field rows of the `default` (unknown PGN) branch of
`parsePGNData`. -/
def defaultHexFields (msg : N2kMsg) : List PGNField :=
  [⟨"DataLen", toString msg.DataLen, "bytes"⟩,
   ⟨"Data", hexRow msg.Data 0 (min msg.DataLen 8), ""⟩] ++
  (if msg.DataLen > 8 then
    [PGNField.mk "" (hexRow msg.Data 8 (min msg.DataLen 16)) ""] else [])

/-- `N2K_Monitor::parsePGNData`: populates a `PGNData` record with header
data, the raw payload (up to 256 bytes) and the per-PGN parsed field
rows; library-backed branches go through the `lib.fields` oracle, 60928
and 126993 are bit-parsed directly, unknown PGNs fall back to hex. -/
def parsePGNData (lib : LibParsers) (now : Nat) (msg : N2kMsg) : PGNData :=
  let dataLen := min msg.DataLen 256
  let fields :=
    if msg.PGN ∈ LIB_PARSED_PGNS then
      match lib.fields msg with
      | some fs => fs
      | none => []
    else if msg.PGN = 60928 then
      if 8 ≤ msg.DataLen then isoAddressClaimFields (nameFromBytes msg.Data) else []
    else if msg.PGN = 126993 then
      if 8 ≤ msg.DataLen then heartbeatFields msg.Data else []
    else defaultHexFields msg
  ⟨msg.PGN, monGetPGNName msg.PGN, now, fields, msg.Data.take dataLen, dataLen⟩

/-- One in-place update of the device record stored under `source`
(`devices[source].… = …`). -/
def touchDevice (f : DeviceInfo → DeviceInfo) (source : Nat)
    (st : MonitorState) : MonitorState :=
  { st with devices := mupd f st.devices source }

/-- Device discovery: create a `DeviceInfo` with the synthetic default
name on first contact and rebuild the ordered device list. -/
def discoverDevice (now source : Nat) (st : MonitorState) : MonitorState :=
  if (mfind st.devices source).isNone then
    let newDevice : DeviceInfo :=
      ⟨source, "Device " ++ toString source, now, 0, []⟩
    let devices := mset st.devices source newDevice
    { st with devices := devices, deviceList := devices.map Prod.fst }
  else st

/-- Arduino `String::startsWith`: a plain prefix test on the character
data (modelled on the character list, which the kernel can evaluate). -/
def strStartsWith (s pre : String) : Bool :=
  s.data.take pre.data.length = pre.data

/-- The C `isspace` class used by Arduino `String::trim`. -/
def isSpaceChar (c : Char) : Bool :=
  c = ' ' ∨ c = '\t' ∨ c = '\n' ∨ c = '\x0b' ∨ c = '\x0c' ∨ c = '\r'

/-- Arduino `String::trim`: strips leading and trailing whitespace. -/
def strTrim (s : String) : String :=
  ⟨((s.data.dropWhile isSpaceChar).reverse.dropWhile isSpaceChar).reverse⟩

/-- The address-claim naming heuristic applied to a device record: only a
device whose name still starts with the synthetic `"Device "` prefix gets
the provisional `"Mfr…"` name. -/
def applyClaimName (msg : N2kMsg) (d : DeviceInfo) : DeviceInfo :=
  if strStartsWith d.name "Device " then
    { d with name := claimDerivedName (nameFromBytes msg.Data) }
  else d

/-- The product-information naming step: when `ParseN2kPGN126996` succeeds
and the model ID is non-empty, overwrite the device name with the trimmed
model ID unconditionally. -/
def prodInfoStep (lib : LibParsers) (msg : N2kMsg) (source : Nat)
    (st : MonitorState) : MonitorState :=
  match lib.prodInfo msg with
  | some pi =>
      if 0 < pi.modelID.length then
        touchDevice (fun d => { d with name := strTrim pi.modelID }) source st
      else st
  | none => st

/-- `N2K_Monitor::handleN2kMessage`: device discovery, `lastSeen` /
`lastHeartbeat` refresh, name resolution (address-claim heuristic, then
product information), and the unconditional store of the freshly parsed
`PGNData` into the (device, PGN) slot. -/
def handleN2kMessage (lib : LibParsers) (now : Nat) (msg : N2kMsg)
    (st : MonitorState) : MonitorState :=
  let source := msg.Source
  -- Device discovery and creation
  let st := discoverDevice now source st
  -- Timing updates
  let st := touchDevice (fun d => { d with lastSeen := now }) source st
  let st :=
    if msg.PGN = 126993 then
      touchDevice (fun d => { d with lastHeartbeat := now }) source st
    else st
  -- Device name resolution: ISO address claim heuristic
  let st :=
    if msg.PGN = 60928 ∧ 8 ≤ msg.DataLen then
      touchDevice (applyClaimName msg) source st
    else st
  -- Device name resolution: product information model ID
  let st := if msg.PGN = 126996 then prodInfoStep lib msg source st else st
  -- PGN data storage (unconditional overwrite of the slot)
  touchDevice
    (fun d => { d with pgns := mset d.pgns msg.PGN (parsePGNData lib now msg) })
    source st

/-- `N2K_Monitor::getDevice`. -/
def getDevice (st : MonitorState) (address : Nat) : Option DeviceInfo :=
  mfind st.devices address

/-- `N2K_Monitor::getPGNData` accessor. -/
def getPGNData (st : MonitorState) (deviceAddress : Nat) (pgn : Nat) :
    Option PGNData :=
  match mfind st.devices deviceAddress with
  | some d => mfind d.pgns pgn
  | none => none

/-- The activity timestamp used by the eviction sweep: `lastHeartbeat` when
one was ever received, else `lastSeen`. -/
def activity (d : DeviceInfo) : Nat :=
  if 0 < d.lastHeartbeat then d.lastHeartbeat else d.lastSeen

/-- A device that has exceeded the stale timeout (32-bit wrap-around
subtraction, as the C `unsigned long` arithmetic computes it). -/
def staleDevice (now : Nat) (d : DeviceInfo) : Bool :=
  STALE_TIMEOUT_MS < sub32 now (activity d)

/-- The PGN records kept by pass 1 for a surviving device: a record is
dropped when older than the timeout, except the ISO address claim (60928)
which is only ever removed with the whole device. -/
def keepPgn (now : Nat) (kv : Nat × PGNData) : Bool :=
  kv.1 = 60928 ∨ ¬ STALE_TIMEOUT_MS < sub32 now kv.2.lastUpdate

/-- Pass-1 PGN pruning of a surviving device. -/
def prunePgns (now : Nat) (d : DeviceInfo) : DeviceInfo :=
  { d with pgns := d.pgns.filter (keepPgn now) }

/-- `N2K_Monitor::cleanupStaleEntries`: two-pass sweep — pass 1 collects
stale devices and prunes stale PGNs of the surviving ones, pass 2 erases
the collected devices from the map and the ordered device list. -/
def cleanupStaleEntries (now : Nat) (st : MonitorState) : MonitorState :=
  if ¬ st.staleCleanupEnabled then st
  else
    let devicesToRemove :=
      (st.devices.filter (fun kv => staleDevice now kv.2)).map Prod.fst
    let devices1 := st.devices.map
      (fun kv => if staleDevice now kv.2 then kv else (kv.1, prunePgns now kv.2))
    let devices2 := devicesToRemove.foldl
      (fun m a => m.filter (fun kv => kv.1 ≠ a)) devices1
    let deviceList2 := devicesToRemove.foldl (fun l a => l.erase a) st.deviceList
    { st with devices := devices2, deviceList := deviceList2 }

/-- `N2K_Monitor::update`: throttles the sweep to once per 5000 ms. -/
def monitorUpdate (now : Nat) (st : MonitorState) : MonitorState :=
  if 5000 < sub32 now st.lastCleanupCheck then
    cleanupStaleEntries now { st with lastCleanupCheck := now }
  else st

/-! ## Attack controller (`Attack_Controller.h/.cpp`, `Attack_Spam.cpp`,
`Attack_Impersonate.cpp`, `Attack_Spoof.cpp`, `Attack_FieldRange.cpp`) -/

/-- `Attack_Controller` state (`impPGNList`, a UI scratch list, is not
modelled; no claim concerns it).  `float` values are idealised as `ℚ`;
the two lock arrays have fixed capacity `MAX_IMP_FIELDS = 16`. -/
structure AttackState where
  spamAttackActive : Bool
  spamMessageCount : Nat
  lastSpamTime : Nat
  currentSpamAddress : Nat
  claimedAddresses : List Nat
  attackerName : Nat
  impersonateActive : Bool
  impTargetAddress : Nat
  impTargetPGN : Nat
  impSelectedFieldIndex : Nat
  impFieldValue : ℚ
  lastImpTime : Nat
  impFieldMin : ℚ
  impFieldMax : ℚ
  impFieldLocked : List Bool
  impFieldLockedValues : List ℚ
  impersonatingOwnSensor : Bool
  impOwnSensorIndex : Nat
deriving DecidableEq, Repr

/-- The state established by the `Attack_Controller` constructor.
(`attackerName` is left uninitialised by the constructor and only ever
written by `startSpamAttack`; it is modelled as 0 here.) -/
def initAttackState : AttackState :=
  ⟨false, 0, 0, 0, [], 0, false, 0, 0, 0, 0, 0, 0, 100,
   List.replicate MAX_IMP_FIELDS false, List.replicate MAX_IMP_FIELDS 0,
   false, 0⟩

/-- `Attack_Controller::buildHighPriorityName`: the 64-bit ISO NAME the DoS
engine claims with — unique number 0, manufacturer code 0, device
instance 0, device function 130 (bits 35–42), device class 75
(bits 43–49), system instance 0, industry group 4 = marine (bits 54–56),
self-configurable bit 57 set. -/
def buildHighPriorityName : Nat :=
  ((((((((0 : Nat) ||| 0) ||| (0 <<< 21)) ||| (0 <<< 32)) ||| (130 <<< 35)) |||
    (75 <<< 43)) ||| (0 <<< 50)) ||| (4 <<< 54)) ||| (1 <<< 57)

/-- The same NAME assembly generalised over the sub-field values, with
each shifted term reduced modulo `2 ^ 64` as `uint64_t` computes it; used
to compare the engine's NAME against other devices' NAMEs. -/
def mkName (u m d f c s g a : Nat) : Nat :=
  ((((((((0 : Nat) ||| u % U64) ||| (m <<< 21) % U64) ||| (d <<< 32) % U64) |||
    (f <<< 35) % U64) ||| (c <<< 43) % U64) ||| (s <<< 50) % U64) |||
    (g <<< 54) % U64) ||| (a <<< 57) % U64

/-- Payload content of an outgoing spoofed message. -/
inductive OutContent where
  | empty
  | fieldsEnc (vals : List ℚ)
  | raw (bytes : List Nat)
deriving DecidableEq, Repr

/-- An outgoing bus message handed to `SendMsg` (`tN2kMsg` header plus an
abstract payload: `fieldsEnc vals` stands for the `SetN2k…` encoding of
the native field values `vals`, `raw` for a byte-for-byte payload,
`empty` for a message whose payload was never written). -/
structure OutMsg where
  pgn : Nat
  source : Nat
  destination : Nat
  content : OutContent
deriving DecidableEq, Repr

/-- A default-constructed `tN2kMsg` of the external library: PGN 0, source
15, broadcast destination, no payload written. -/
def defaultOutMsg : OutMsg :=
  ⟨0, 15, 255, OutContent.empty⟩

/-- The `case` labels of the `buildSpoofedMessage` switch (messages it can
decode, mutate and re-encode); every other PGN takes the raw-replay
`default` branch. -/
def SPOOF_CASE_PGNS : List Nat :=
  [127245, 127250, 127251, 127252, 127257, 127258, 127488, 127489, 127493,
   127497, 127505, 127506, 127507, 127508, 128000, 128259, 128267, 129025,
   129026, 130306, 130310, 130311, 130312, 130313, 130314, 130316, 130576,
   130577]

/-- The `getFieldValue` lambda of `buildSpoofedMessage`: the value placed
at native field position `idx` — the live/locked tick value for the
selected field, the locked value for a locked field (bounds-checked
against the lock-array capacity), else the value decoded from the
template. -/
def getFieldValue (s : AttackState) (fieldIndex : Nat) (value : ℚ)
    (idx : Nat) (originalValue : ℚ) : ℚ :=
  if idx = fieldIndex then value
  else if idx < MAX_IMP_FIELDS ∧ s.impFieldLocked.getD idx false then
    s.impFieldLockedValues.getD idx 0
  else originalValue

/-- `Attack_Controller::buildSpoofedMessage`.  `dec pgn bytes` abstracts
the external library's `ParseN2k…` decode of the template payload into
native field values (`none` = decode failed, the branch then writes
nothing into the outgoing message).  When no template record exists the
function returns before touching the message at all. -/
def buildSpoofedMessage (dec : Nat → List Nat → Option (List ℚ))
    (mon : MonitorState) (s : AttackState) (pgn : Nat) (fieldIndex : Nat)
    (value : ℚ) : OutMsg :=
  match getPGNData mon s.impTargetAddress pgn with
  | none => defaultOutMsg
  | some pd =>
    let base : OutMsg :=
      if pgn ∈ SPOOF_CASE_PGNS then
        match dec pgn pd.rawData with
        | some orig =>
            ⟨pgn, 15, 255,
             OutContent.fieldsEnc (orig.mapIdx
               (fun i o => getFieldValue s fieldIndex value i o))⟩
        | none => ⟨0, 15, 255, OutContent.empty⟩
      else ⟨pgn, 15, 255, OutContent.raw pd.rawData⟩
    { base with source := s.impTargetAddress, destination := 255 }

/-- `Attack_Controller::stopSpamAttack` (its three restorative address
claims are transmissions, not controller state). -/
def stopSpamAttack (s : AttackState) : AttackState :=
  { s with spamAttackActive := false, claimedAddresses := [] }

/-- `Attack_Controller::stopImpersonate`. -/
def stopImpersonate (s : AttackState) : AttackState :=
  { s with
    impersonateActive := false
    impersonatingOwnSensor := false
    impOwnSensorIndex := 0 }

/-- `Attack_Controller::startSpamAttack`: stops an active impersonation
first, then arms the spam attack with the freshly built NAME. -/
def startSpamAttack (s : AttackState) : AttackState :=
  let s := if s.impersonateActive then stopImpersonate s else s
  { s with
    spamAttackActive := true
    spamMessageCount := 0
    currentSpamAddress := 0
    lastSpamTime := 0
    attackerName := buildHighPriorityName
    claimedAddresses := [] }

/-- `Attack_Controller::startImpersonate`: stops an active spam attack
first, then arms impersonation, clears all 16 locks and loads the
Registry range of field 0. -/
def startImpersonate (targetAddress targetPGN : Nat) (s : AttackState) :
    AttackState :=
  let s := if s.spamAttackActive then stopSpamAttack s else s
  { s with
    impersonateActive := true
    impTargetAddress := targetAddress
    impTargetPGN := targetPGN
    impSelectedFieldIndex := 0
    lastImpTime := 0
    impFieldLocked := List.replicate MAX_IMP_FIELDS false
    impFieldLockedValues := List.replicate MAX_IMP_FIELDS 0
    impFieldMin := (getFieldRange targetPGN 0).1
    impFieldMax := (getFieldRange targetPGN 0).2 }

/-- `Attack_Controller::setImpSelectedFieldIndex`: stores the index
unconditionally and reloads the field range (falling back to `(0, 100)`
for an unknown index). -/
def setImpSelectedFieldIndex (index : Nat) (s : AttackState) : AttackState :=
  { s with
    impSelectedFieldIndex := index
    impFieldMin := (getFieldRange s.impTargetPGN index).1
    impFieldMax := (getFieldRange s.impTargetPGN index).2 }

/-- `Attack_Controller::toggleValueLock`: guarded by
`impSelectedFieldIndex < MAX_IMP_FIELDS`; locking snapshots the current
live value. -/
def toggleValueLock (s : AttackState) : AttackState :=
  if s.impSelectedFieldIndex < MAX_IMP_FIELDS then
    if s.impFieldLocked.getD s.impSelectedFieldIndex false then
      { s with impFieldLocked := s.impFieldLocked.set s.impSelectedFieldIndex false }
    else
      { s with
        impFieldLocked := s.impFieldLocked.set s.impSelectedFieldIndex true
        impFieldLockedValues :=
          s.impFieldLockedValues.set s.impSelectedFieldIndex s.impFieldValue }
  else s

/-- The field value computed by one impersonation tick: the locked value
when the selected field is locked, else the live analog sample `raw`
(0–1023) normalised and mapped affinely into `[impFieldMin, impFieldMax]`. -/
def tickFieldValue (raw : ℚ) (s : AttackState) : ℚ :=
  let currentFieldLocked := s.impSelectedFieldIndex < MAX_IMP_FIELDS ∧
    s.impFieldLocked.getD s.impSelectedFieldIndex false
  if currentFieldLocked then
    s.impFieldLockedValues.getD s.impSelectedFieldIndex 0
  else
    let normalized := raw / 1023
    s.impFieldMin + normalized * (s.impFieldMax - s.impFieldMin)

/-- `Attack_Controller::updateImpersonate`: when impersonation is active
and ≥ 100 ms have elapsed, computes the tick value, builds the spoofed
message and unconditionally hands it to `SendMsg` (the second component:
`some m` = `SendMsg` called with `m`, `none` = no send call this tick). -/
def updateImpersonate (dec : Nat → List Nat → Option (List ℚ)) (raw : ℚ)
    (now : Nat) (mon : MonitorState) (s : AttackState) :
    AttackState × Option OutMsg :=
  if ¬ s.impersonateActive then (s, none)
  else if 100 ≤ sub32 now s.lastImpTime then
    let v := tickFieldValue raw s
    let s' := { s with lastImpTime := now, impFieldValue := v }
    (s', some (buildSpoofedMessage dec mon s' s.impTargetPGN
      s.impSelectedFieldIndex v))
  else (s, none)

/-- State effect of `Attack_Controller::attackHandler`: while the spam
attack is active, every foreign ISO address claim triggers a competing
claim (counted in `spamMessageCount`, a 32-bit counter). -/
def attackHandlerState (msg : N2kMsg) (s : AttackState) : AttackState :=
  if ¬ s.spamAttackActive then s
  else if msg.Priority = 0 ∧ msg.PGN = 60928 then s
  else if msg.PGN = 60928 then
    { s with spamMessageCount := (s.spamMessageCount + 1) % U32 }
  else s

/-- `Attack_Controller::setImpersonatingOwnSensor`. -/
def setImpersonatingOwnSensor (own : Bool) (sensorIndex : Nat)
    (s : AttackState) : AttackState :=
  { s with impersonatingOwnSensor := own, impOwnSensorIndex := sensorIndex }

/-- Attack-controller states reachable from the constructor state through
the controller's public operations. -/
inductive ReachableAttack : AttackState → Prop where
  | init : ReachableAttack initAttackState
  | startSpam (s : AttackState) : ReachableAttack s →
      ReachableAttack (startSpamAttack s)
  | stopSpam (s : AttackState) : ReachableAttack s →
      ReachableAttack (stopSpamAttack s)
  | startImp (a p : Nat) (s : AttackState) : ReachableAttack s →
      ReachableAttack (startImpersonate a p s)
  | stopImp (s : AttackState) : ReachableAttack s →
      ReachableAttack (stopImpersonate s)
  | selectField (i : Nat) (s : AttackState) : ReachableAttack s →
      ReachableAttack (setImpSelectedFieldIndex i s)
  | toggle (s : AttackState) : ReachableAttack s →
      ReachableAttack (toggleValueLock s)
  | tick (dec : Nat → List Nat → Option (List ℚ)) (raw : ℚ) (now : Nat)
      (mon : MonitorState) (s : AttackState) : ReachableAttack s →
      ReachableAttack (updateImpersonate dec raw now mon s).1
  | handler (msg : N2kMsg) (s : AttackState) : ReachableAttack s →
      ReachableAttack (attackHandlerState msg s)
  | ownSensor (own : Bool) (i : Nat) (s : AttackState) : ReachableAttack s →
      ReachableAttack (setImpersonatingOwnSensor own i s)

/-! ## Tracker lemmas -/

theorem touchDevice_presence (f : DeviceInfo → DeviceInfo) (s a : Nat)
    (st : MonitorState) :
    (mfind (touchDevice f s st).devices a).isSome =
      (mfind st.devices a).isSome := by
  by_cases h : s = a
  · subst h
    simp only [touchDevice, mfind_mupd_self]
    cases mfind st.devices s <;> rfl
  · simp only [touchDevice, mfind_mupd_ne _ _ _ _ h]

theorem discoverDevice_presence (now s : Nat) (st : MonitorState) :
    (mfind (discoverDevice now s st).devices s).isSome = true := by
  unfold discoverDevice
  by_cases h : (mfind st.devices s).isNone
  · simp [h, mfind_mset_self]
  · cases hm : mfind st.devices s with
    | none => rw [hm] at h; simp at h
    | some d => simp [h, hm]

theorem prodInfoStep_presence (lib : LibParsers) (msg : N2kMsg) (s a : Nat)
    (st : MonitorState) :
    (mfind (prodInfoStep lib msg s st).devices a).isSome =
      (mfind st.devices a).isSome := by
  unfold prodInfoStep
  cases lib.prodInfo msg with
  | none => rfl
  | some pi =>
      by_cases h : 0 < pi.modelID.length <;> simp [h, touchDevice_presence]

/-- After `handleN2kMessage`, the (source, PGN) slot holds exactly the
freshly parsed record — the store is unconditional. -/
theorem handle_stores_record (lib : LibParsers) (now : Nat) (msg : N2kMsg)
    (st : MonitorState) :
    getPGNData (handleN2kMessage lib now msg st) msg.Source msg.PGN =
      some (parsePGNData lib now msg) := by
  have key : ∀ st' : MonitorState, (mfind st'.devices msg.Source).isSome = true →
      getPGNData (touchDevice
        (fun d => { d with pgns := mset d.pgns msg.PGN (parsePGNData lib now msg) })
        msg.Source st') msg.Source msg.PGN = some (parsePGNData lib now msg) := by
    intro st' h
    unfold getPGNData touchDevice
    simp only [mfind_mupd_self]
    cases hm : mfind st'.devices msg.Source with
    | none => rw [hm] at h; simp at h
    | some d => simp [mfind_mset_self]
  unfold handleN2kMessage
  apply key
  by_cases h993 : msg.PGN = 126993 <;>
    by_cases h928 : msg.PGN = 60928 ∧ 8 ≤ msg.DataLen <;>
      by_cases h996 : msg.PGN = 126996 <;>
        simp [h993, h928, h996, touchDevice_presence, prodInfoStep_presence,
          discoverDevice_presence]

/-- The display name currently stored for address `a`. -/
def nameAt (st : MonitorState) (a : Nat) : Option String :=
  (mfind st.devices a).map DeviceInfo.name

theorem discoverDevice_of_present (now s : Nat) (st : MonitorState)
    (h : (mfind st.devices s).isSome = true) :
    discoverDevice now s st = st := by
  unfold discoverDevice
  cases hm : mfind st.devices s with
  | none => rw [hm] at h; simp at h
  | some d => simp [hm]

theorem nameAt_touchDevice_preserve (f : DeviceInfo → DeviceInfo)
    (hf : ∀ d, (f d).name = d.name) (s a : Nat) (st : MonitorState) :
    nameAt (touchDevice f s st) a = nameAt st a := by
  by_cases h : s = a
  · subst h
    simp only [nameAt, touchDevice, mfind_mupd_self]
    cases mfind st.devices s <;> simp [hf]
  · simp only [nameAt, touchDevice, mfind_mupd_ne _ _ _ _ h]

theorem nameAt_touchDevice_set (nm : String) (s : Nat) (st : MonitorState)
    (h : (mfind st.devices s).isSome = true) :
    nameAt (touchDevice (fun d => { d with name := nm }) s st) s = some nm := by
  simp only [nameAt, touchDevice, mfind_mupd_self]
  cases hm : mfind st.devices s with
  | none => rw [hm] at h; simp at h
  | some d => simp

theorem nameAt_touch_applyClaim (msg : N2kMsg) (s : Nat) (st : MonitorState) :
    nameAt (touchDevice (applyClaimName msg) s st) s =
      (nameAt st s).map (fun n =>
        if strStartsWith n "Device " then
          claimDerivedName (nameFromBytes msg.Data)
        else n) := by
  simp only [nameAt, touchDevice, mfind_mupd_self]
  cases hm : mfind st.devices s with
  | none => simp
  | some d => by_cases hsw : strStartsWith d.name "Device " <;>
      simp [applyClaimName, hsw]

theorem nameAt_touch_seen (now : Nat) (s a : Nat) (st : MonitorState) :
    nameAt (touchDevice (fun d => { d with lastSeen := now }) s st) a =
      nameAt st a :=
  nameAt_touchDevice_preserve (fun d => { d with lastSeen := now })
    (fun _ => rfl) s a st

theorem nameAt_touch_beat (now : Nat) (s a : Nat) (st : MonitorState) :
    nameAt (touchDevice (fun d => { d with lastHeartbeat := now }) s st) a =
      nameAt st a :=
  nameAt_touchDevice_preserve (fun d => { d with lastHeartbeat := now })
    (fun _ => rfl) s a st

theorem nameAt_touch_store (pgn : Nat) (rec : PGNData) (s a : Nat)
    (st : MonitorState) :
    nameAt (touchDevice (fun d => { d with pgns := mset d.pgns pgn rec }) s st)
      a = nameAt st a :=
  nameAt_touchDevice_preserve (fun d => { d with pgns := mset d.pgns pgn rec })
    (fun _ => rfl) s a st

/-- A claim-type message never changes the name of a device whose current
name does not carry the synthetic `"Device "` prefix — the heuristic only
fires on the synthetic default. -/
theorem handle_claim_preserves_name (lib : LibParsers) (now : Nat)
    (msg : N2kMsg) (st : MonitorState) (d : DeviceInfo)
    (hP : msg.PGN = 60928)
    (hd : mfind st.devices msg.Source = some d)
    (hpre : strStartsWith d.name "Device " = false) :
    nameAt (handleN2kMessage lib now msg st) msg.Source = some d.name := by
  have hpres : (mfind st.devices msg.Source).isSome = true := by
    rw [hd]; rfl
  have h993 : ¬ msg.PGN = 126993 := by omega
  have h996 : ¬ msg.PGN = 126996 := by omega
  simp only [handleN2kMessage]
  rw [discoverDevice_of_present now msg.Source st hpres, if_neg h993,
    if_neg h996, nameAt_touch_store]
  by_cases h928 : msg.PGN = 60928 ∧ 8 ≤ msg.DataLen
  · rw [if_pos h928, nameAt_touch_applyClaim, nameAt_touch_seen]
    simp [nameAt, hd, hpre]
  · rw [if_neg h928, nameAt_touch_seen]
    simp [nameAt, hd]

/-- A product-information message with a non-empty model ID always
overwrites the stored device name with the trimmed model ID. -/
theorem handle_prod_sets_name (lib : LibParsers) (now : Nat) (msg : N2kMsg)
    (st : MonitorState) (pi : ProductInfo)
    (hP : msg.PGN = 126996)
    (hpi : lib.prodInfo msg = some pi)
    (hlen : 0 < pi.modelID.length) :
    nameAt (handleN2kMessage lib now msg st) msg.Source =
      some (strTrim pi.modelID) := by
  have h993 : ¬ msg.PGN = 126993 := by omega
  have h928 : ¬ (msg.PGN = 60928 ∧ 8 ≤ msg.DataLen) := by omega
  simp only [handleN2kMessage]
  rw [if_neg h993, if_neg h928, if_pos hP, nameAt_touch_store]
  unfold prodInfoStep
  rw [hpi]
  dsimp only
  rw [if_pos hlen]
  apply nameAt_touchDevice_set
  simp [touchDevice_presence, discoverDevice_presence]

/-- An identity claim ingested for a device still carrying the synthetic
default name derives the provisional `"Mfr<code><suffix>"` name. -/
theorem handle_claim_derives_name (lib : LibParsers) (now : Nat)
    (msg : N2kMsg) (st : MonitorState) (d : DeviceInfo)
    (hP : msg.PGN = 60928) (hdl : 8 ≤ msg.DataLen)
    (hd : mfind st.devices msg.Source = some d)
    (hpre : strStartsWith d.name "Device " = true) :
    nameAt (handleN2kMessage lib now msg st) msg.Source =
      some ("Mfr" ++ toString ((nameFromBytes msg.Data >>> 21) &&& 2047) ++
        claimSuffix ((nameFromBytes msg.Data >>> 40) &&& 255)) := by
  have hpres : (mfind st.devices msg.Source).isSome = true := by
    rw [hd]; rfl
  have h993 : ¬ msg.PGN = 126993 := by omega
  have h996 : ¬ msg.PGN = 126996 := by omega
  have h928 : msg.PGN = 60928 ∧ 8 ≤ msg.DataLen := ⟨hP, hdl⟩
  simp only [handleN2kMessage]
  rw [discoverDevice_of_present now msg.Source st hpres, if_neg h993,
    if_neg h996, nameAt_touch_store, if_pos h928, nameAt_touch_applyClaim,
    nameAt_touch_seen]
  simp [nameAt, hd, hpre, claimDerivedName]

/-! ## Eviction sweep lemmas -/

theorem nodup_keys_eq {α : Type} :
    ∀ l : List (Nat × α), (l.map Prod.fst).Nodup →
      ∀ kv kw : Nat × α, kv ∈ l → kw ∈ l → kv.1 = kw.1 → kv = kw := by
  intro l
  induction l with
  | nil => simp
  | cons x t ih =>
      intro hnd kv kw hkv hkw hk
      rw [List.map_cons, List.nodup_cons] at hnd
      obtain ⟨hx, hnd2⟩ := hnd
      rcases List.mem_cons.mp hkv with h1 | h1 <;>
        rcases List.mem_cons.mp hkw with h2 | h2
      · rw [h1, h2]
      · exfalso
        apply hx
        subst h1
        rw [hk]
        exact List.mem_map_of_mem Prod.fst h2
      · exfalso
        apply hx
        subst h2
        rw [← hk]
        exact List.mem_map_of_mem Prod.fst h1
      · exact ih hnd2 kv kw h1 h2 hk

theorem mem_foldl_erase {α : Type} :
    ∀ (rem : List Nat) (l : List (Nat × α)) (kv : Nat × α),
      kv ∈ rem.foldl (fun m a => m.filter (fun e => e.1 ≠ a)) l ↔
        kv ∈ l ∧ kv.1 ∉ rem := by
  intro rem
  induction rem with
  | nil => simp
  | cons r t ih =>
      intro l kv
      rw [List.foldl_cons, ih]
      simp only [List.mem_filter, decide_eq_true_eq, List.mem_cons]
      constructor
      · rintro ⟨⟨h1, h2⟩, h3⟩
        exact ⟨h1, by tauto⟩
      · rintro ⟨h1, h2⟩
        exact ⟨⟨h1, by tauto⟩, by tauto⟩

theorem activity_prune (now : Nat) (d : DeviceInfo) :
    activity (prunePgns now d) = activity d := rfl

/-- C5: with stale cleanup disabled the eviction sweep removes no device
(it is the identity); with cleanup enabled, after the sweep no device
whose activity timestamp (`lastHeartbeat` if positive, else `lastSeen`)
is older than the stale timeout remains in the directory — and since all
of a device's PGN records live inside its directory entry, a removed
device's records are removed with it. -/
theorem eviction_sweep_spec (now : Nat) (st : MonitorState) :
    (st.staleCleanupEnabled = false → cleanupStaleEntries now st = st) ∧
    (st.staleCleanupEnabled = true →
      ∀ kv ∈ (cleanupStaleEntries now st).devices,
        sub32 now (activity kv.2) ≤ STALE_TIMEOUT_MS) := by
  constructor
  · intro h
    unfold cleanupStaleEntries
    simp [h]
  · intro h kv hkv
    unfold cleanupStaleEntries at hkv
    simp only [h, not_true_eq_false, if_false, Bool.true_eq_false] at hkv
    rw [mem_foldl_erase] at hkv
    obtain ⟨h1, h2⟩ := hkv
    rw [List.mem_map] at h1
    obtain ⟨kv0, hkv0, heq⟩ := h1
    by_cases hst : staleDevice now kv0.2 = true
    · rw [if_pos hst] at heq
      subst heq
      exact absurd (List.mem_map_of_mem Prod.fst
        (List.mem_filter.mpr ⟨hkv0, hst⟩)) h2
    · rw [if_neg hst] at heq
      subst heq
      simp only [activity_prune]
      simp only [staleDevice, decide_eq_true_eq] at hst
      omega

/-- C6: the identity-claim (PGN 60928) record of a device that survives an
eviction sweep is kept verbatim, no matter how old its own `lastUpdate`
is; it is never evicted independently of its owning device record. -/
theorem claim_record_survives (now : Nat) (st : MonitorState) (a : Nat)
    (d : DeviceInfo) (r : PGNData)
    (hnd : (st.devices.map Prod.fst).Nodup)
    (hmem : (a, d) ∈ st.devices)
    (hfresh : staleDevice now d = false)
    (hrec : (60928, r) ∈ d.pgns) :
    ∃ d2, (a, d2) ∈ (cleanupStaleEntries now st).devices ∧
      (60928, r) ∈ d2.pgns := by
  unfold cleanupStaleEntries
  cases hen : st.staleCleanupEnabled with
  | false =>
      simp only [hen, Bool.false_eq_true, not_false_eq_true, if_true]
      exact ⟨d, hmem, hrec⟩
  | true =>
      simp only [hen, not_true_eq_false, if_false, Bool.true_eq_false]
      refine ⟨prunePgns now d, ?_, ?_⟩
      · rw [mem_foldl_erase]
        constructor
        · rw [List.mem_map]
          refine ⟨(a, d), hmem, ?_⟩
          rw [if_neg]
          simp [hfresh]
        · intro hmm
          rw [List.mem_map] at hmm
          obtain ⟨kv2, hkv2, hk⟩ := hmm
          rw [List.mem_filter] at hkv2
          obtain ⟨hkv2m, hstale2⟩ := hkv2
          have hEq := nodup_keys_eq st.devices hnd kv2 (a, d) hkv2m hmem
            (by rw [hk])
          rw [hEq] at hstale2
          rw [hfresh] at hstale2
          exact Bool.false_ne_true hstale2
      · exact List.mem_filter.mpr ⟨hrec, by simp [keepPgn]⟩

/-! ## NAME arithmetic lemmas -/

theorem mul_two_pow_lor_eq_add :
    ∀ k b a : Nat, a < 2 ^ k → (b * 2 ^ k) ||| a = b * 2 ^ k + a := by
  intro k
  induction k with
  | zero =>
      intro b a ha
      have ha0 : a = 0 := by omega
      subst ha0
      simp
  | succ k ih =>
      intro b a ha
      have hd : a.div2 < 2 ^ k := by
        have h1 := Nat.bit_decomp a
        rw [← h1] at ha
        exact Nat.bit_lt_two_pow_succ_iff.mp ha
      have hbit : b * 2 ^ (k + 1) = Nat.bit false (b * 2 ^ k) := by
        rw [Nat.bit_val, Bool.toNat_false, Nat.add_zero, pow_succ]
        ring
      calc (b * 2 ^ (k + 1)) ||| a
          = Nat.bit false (b * 2 ^ k) ||| Nat.bit a.bodd a.div2 := by
            rw [← hbit, Nat.bit_decomp]
        _ = Nat.bit (false || a.bodd) ((b * 2 ^ k) ||| a.div2) :=
            Nat.lor_bit false (b * 2 ^ k) a.bodd a.div2
        _ = Nat.bit a.bodd (b * 2 ^ k + a.div2) := by
            rw [ih b a.div2 hd]
            simp
        _ = b * 2 ^ (k + 1) + a := by
            have h2 : 2 * a.div2 + a.bodd.toNat = a := by
              have h3 := Nat.bit_val a.bodd a.div2
              rw [Nat.bit_decomp] at h3
              omega
            rw [Nat.bit_val]
            have h4 : 2 * (b * 2 ^ k + a.div2) + a.bodd.toNat
                = 2 * (b * 2 ^ k) + (2 * a.div2 + a.bodd.toNat) := by ring
            rw [h4, h2, pow_succ]
            ring

theorem lor_mul_two_pow_eq_add (b k a : Nat) (ha : a < 2 ^ k) :
    a ||| (b * 2 ^ k) = b * 2 ^ k + a := by
  rw [Nat.lor_comm]
  exact mul_two_pow_lor_eq_add k b a ha

/-- With every sub-field within its bit width, the assembled NAME is the
plain weighted sum of its sub-fields. -/
theorem mkName_eq (u m d f c s g a : Nat)
    (hu : u < 2 ^ 21) (hm : m < 2 ^ 11) (hd : d < 2 ^ 3) (hf : f < 2 ^ 8)
    (hc : c < 2 ^ 7) (hs : s < 2 ^ 4) (hg : g < 2 ^ 3) (ha : a < 2) :
    mkName u m d f c s g a =
      u + m * 2 ^ 21 + d * 2 ^ 32 + f * 2 ^ 35 + c * 2 ^ 43 + s * 2 ^ 50 +
        g * 2 ^ 54 + a * 2 ^ 57 := by
  unfold mkName
  rw [Nat.shiftLeft_eq, Nat.shiftLeft_eq, Nat.shiftLeft_eq, Nat.shiftLeft_eq,
    Nat.shiftLeft_eq, Nat.shiftLeft_eq, Nat.shiftLeft_eq]
  rw [Nat.mod_eq_of_lt (show u < U64 by unfold U64; omega),
    Nat.mod_eq_of_lt (show m * 2 ^ 21 < U64 by
      unfold U64; norm_num at hm ⊢; omega),
    Nat.mod_eq_of_lt (show d * 2 ^ 32 < U64 by
      unfold U64; norm_num at hd ⊢; omega),
    Nat.mod_eq_of_lt (show f * 2 ^ 35 < U64 by
      unfold U64; norm_num at hf ⊢; omega),
    Nat.mod_eq_of_lt (show c * 2 ^ 43 < U64 by
      unfold U64; norm_num at hc ⊢; omega),
    Nat.mod_eq_of_lt (show s * 2 ^ 50 < U64 by
      unfold U64; norm_num at hs ⊢; omega),
    Nat.mod_eq_of_lt (show g * 2 ^ 54 < U64 by
      unfold U64; norm_num at hg ⊢; omega),
    Nat.mod_eq_of_lt (show a * 2 ^ 57 < U64 by
      unfold U64; norm_num at ha ⊢; omega)]
  rw [Nat.zero_or]
  rw [lor_mul_two_pow_eq_add m 21 u (by norm_num at hu ⊢; omega)]
  rw [lor_mul_two_pow_eq_add d 32 _ (by norm_num at hu hm ⊢; omega)]
  rw [lor_mul_two_pow_eq_add f 35 _ (by norm_num at hu hm hd ⊢; omega)]
  rw [lor_mul_two_pow_eq_add c 43 _ (by norm_num at hu hm hd hf ⊢; omega)]
  rw [lor_mul_two_pow_eq_add s 50 _ (by norm_num at hu hm hd hf hc ⊢; omega)]
  rw [lor_mul_two_pow_eq_add g 54 _ (by norm_num at hu hm hd hf hc hs ⊢; omega)]
  rw [lor_mul_two_pow_eq_add a 57 _ (by norm_num at hu hm hd hf hc hs hg ⊢; omega)]
  ring

/-! ## Attack controller lemmas -/

theorem updateImpersonate_flags (dec : Nat → List Nat → Option (List ℚ))
    (raw : ℚ) (now : Nat) (mon : MonitorState) (s : AttackState) :
    (updateImpersonate dec raw now mon s).1.spamAttackActive =
      s.spamAttackActive ∧
    (updateImpersonate dec raw now mon s).1.impersonateActive =
      s.impersonateActive ∧
    (updateImpersonate dec raw now mon s).1.impFieldLocked =
      s.impFieldLocked ∧
    (updateImpersonate dec raw now mon s).1.impFieldLockedValues =
      s.impFieldLockedValues ∧
    (updateImpersonate dec raw now mon s).1.impSelectedFieldIndex =
      s.impSelectedFieldIndex ∧
    (updateImpersonate dec raw now mon s).1.impFieldMin = s.impFieldMin ∧
    (updateImpersonate dec raw now mon s).1.impFieldMax = s.impFieldMax := by
  unfold updateImpersonate
  by_cases h1 : ¬ s.impersonateActive = true <;>
    by_cases h2 : 100 ≤ sub32 now s.lastImpTime <;>
      simp [h1, h2]

/-! ## Claim C1 -/

/-- Library oracle for the C1 scenario: the PGN-127250 decode succeeds on
payload `[1]` (one parsed heading row) and fails on payload `[2]`. -/
def c1Lib : LibParsers :=
  ⟨fun m => if m.Data = [1] then some [⟨"Heading", "90.0", "deg"⟩] else none,
   fun _ => none⟩

def c1Msg1 : N2kMsg := ⟨127250, 50, 6, [1], 1⟩

def c1Msg2 : N2kMsg := ⟨127250, 50, 6, [2], 1⟩

def c1State1 : MonitorState := handleN2kMessage c1Lib 1000 c1Msg1 initMonitorState

def c1State2 : MonitorState := handleN2kMessage c1Lib 2000 c1Msg2 c1State1

/-- C1 (counterexample): a recognized message whose type-specific decode
fails does NOT leave the previously stored record untouched — ingesting
the failing message overwrites the (50, 127250) slot: the field list
becomes empty, and the raw payload and `lastUpdate` become those of the
failed message. -/
theorem C1_counterexample :
    c1Msg2.PGN ∈ LIB_PARSED_PGNS ∧
    c1Lib.fields c1Msg2 = none ∧
    getPGNData c1State1 50 127250 =
      some ⟨127250, "Vessel Heading", 1000,
        [⟨"Heading", "90.0", "deg"⟩], [1], 1⟩ ∧
    getPGNData c1State2 50 127250 =
      some ⟨127250, "Vessel Heading", 2000, [], [2], 1⟩ ∧
    getPGNData c1State2 50 127250 ≠ getPGNData c1State1 50 127250 := by
  refine ⟨by decide, by decide, by decide, by decide, by decide⟩

/-- C1 (amended): for a recognized message type whose type-specific decode
fails, the ingest still overwrites the (device, message-type) slot: the
stored record keeps the header data and the new raw payload and
timestamp, but its field list is empty (the previously decoded fields
are lost, not preserved); only the legacy first-field side-table update
is skipped. -/
theorem decode_failure_overwrites_slot (lib : LibParsers) (now : Nat)
    (msg : N2kMsg) (st : MonitorState)
    (hrec : msg.PGN ∈ LIB_PARSED_PGNS)
    (hfail : lib.fields msg = none) :
    getPGNData (handleN2kMessage lib now msg st) msg.Source msg.PGN =
      some ⟨msg.PGN, monGetPGNName msg.PGN, now, [],
        msg.Data.take (min msg.DataLen 256), min msg.DataLen 256⟩ := by
  rw [handle_stores_record]
  unfold parsePGNData
  simp [hrec, hfail]

/-- Witness for C1's amended theorem at the concrete failing ingest. -/
theorem decode_failure_overwrites_slot_witness :
    getPGNData (handleN2kMessage c1Lib 2000 c1Msg2 c1State1) 50 127250 =
      some ⟨127250, "Vessel Heading", 2000, [], [2], 1⟩ := by
  have h := decode_failure_overwrites_slot c1Lib 2000 c1Msg2 c1State1
    (by decide) (by decide)
  simpa using h

/-! ## Claim C2 -/

/-- C2 (counterexample): the claim "the engine's NAME is ≤ any compliant
device's NAME for all legal sub-field combinations" is false: the NAME
that differs from the engine's only in having the self-configurable flag
clear — every sub-field within its legal bit width — is numerically
smaller than the engine's NAME, so that device would win the
arbitration. -/
theorem C2_counterexample :
    mkName 0 0 0 130 75 0 4 0 < buildHighPriorityName ∧
    0 < 2 ^ 21 ∧ 0 < 2 ^ 11 ∧ 0 < 2 ^ 3 ∧ 130 < 2 ^ 8 ∧ 75 < 2 ^ 7 ∧
      0 < 2 ^ 4 ∧ 4 < 2 ^ 3 ∧ 0 < 2 := by
  refine ⟨by decide, by decide, by decide, by decide, by decide, by decide,
    by decide, by decide, by decide⟩

/-- C2 (amended): the engine's NAME only zeroes the low sub-fields
(unique number, manufacturer code, device instance); it is ≤ every NAME
that agrees with it on the upper sub-fields (device function 130, device
class 75, system instance 0, marine industry group, self-configurable
set) for every legal combination of the low sub-fields — not ≤ every
legal NAME outright. -/
theorem attacker_name_minimal_in_class (u m d : Nat)
    (hu : u < 2 ^ 21) (hm : m < 2 ^ 11) (hd : d < 2 ^ 3) :
    buildHighPriorityName ≤ mkName u m d 130 75 0 4 1 := by
  have h0 : buildHighPriorityName = mkName 0 0 0 130 75 0 4 1 := by rfl
  rw [h0,
    mkName_eq 0 0 0 130 75 0 4 1 (by norm_num) (by norm_num) (by norm_num)
      (by norm_num) (by norm_num) (by norm_num) (by norm_num) (by norm_num),
    mkName_eq u m d 130 75 0 4 1 hu hm hd (by norm_num) (by norm_num)
      (by norm_num) (by norm_num) (by norm_num)]
  omega

/-- Witness for C2's amended theorem at a concrete low-field combination. -/
theorem attacker_name_minimal_in_class_witness :
    buildHighPriorityName ≤ mkName 5 3 2 130 75 0 4 1 :=
  attacker_name_minimal_in_class 5 3 2 (by norm_num) (by norm_num)
    (by norm_num)

/-! ## Claim C3 -/

def c3Dec : Nat → List Nat → Option (List ℚ) := fun _ _ => none

def c3State : AttackState := startImpersonate 50 129025 initAttackState

/-- C3 (counterexample): with no PGNRecord stored for the target pair, the
impersonation tick does NOT skip transmission — `SendMsg` is still
invoked, with the untouched default-constructed message (PGN 0, empty
payload, source not set to the target). -/
theorem C3_counterexample :
    getPGNData initMonitorState 50 129025 = none ∧
    c3State.impersonateActive = true ∧
    (updateImpersonate c3Dec 512 1000 initMonitorState c3State).2 ≠ none ∧
    (updateImpersonate c3Dec 512 1000 initMonitorState c3State).2 =
      some defaultOutMsg := by
  refine ⟨by decide, by decide, by decide, by decide⟩

/-- C3 (amended): when the tracker holds no record for the pair
(targetAddress, targetPgn), the tick builds no spoofed content —
`buildSpoofedMessage` returns before touching the outgoing message — but
`updateImpersonate` still passes that default-constructed message
(PGN 0, no payload, default source) to `SendMsg`; no template-derived
message is transmitted, yet the send call itself is not skipped. -/
theorem missing_template_sends_default
    (dec : Nat → List Nat → Option (List ℚ)) (raw : ℚ) (now : Nat)
    (mon : MonitorState) (s : AttackState)
    (hact : s.impersonateActive = true)
    (helapsed : 100 ≤ sub32 now s.lastImpTime)
    (hnone : getPGNData mon s.impTargetAddress s.impTargetPGN = none) :
    (updateImpersonate dec raw now mon s).2 = some defaultOutMsg := by
  unfold updateImpersonate
  simp only [hact, not_true_eq_false, if_false, helapsed, if_true,
    Bool.true_eq_false]
  unfold buildSpoofedMessage
  simp [hnone]

/-- Witness for C3's amended theorem at the concrete template-less state. -/
theorem missing_template_sends_default_witness :
    (updateImpersonate c3Dec 700 1000 initMonitorState c3State).2 =
      some defaultOutMsg :=
  missing_template_sends_default c3Dec 700 1000 initMonitorState c3State
    (by decide) (by decide) (by decide)

/-! ## Claim C4 -/

/-- C4: in every reachable attack-controller state at most one attack
session (spam/DoS or impersonation) is active, and starting either
engine leaves the other engine stopped in the resulting state (an active
competitor is stopped before the new session becomes active). -/
theorem single_active_attack_session :
    (∀ s, ReachableAttack s →
      ¬(s.spamAttackActive = true ∧ s.impersonateActive = true)) ∧
    (∀ a p s, (startImpersonate a p s).spamAttackActive = false) ∧
    (∀ s, (startSpamAttack s).impersonateActive = false) := by
  have hstartImp : ∀ a p s, (startImpersonate a p s).spamAttackActive = false := by
    intro a p s
    unfold startImpersonate stopSpamAttack
    by_cases h : s.spamAttackActive = true <;> simp [h]
  have hstartSpam : ∀ s, (startSpamAttack s).impersonateActive = false := by
    intro s
    unfold startSpamAttack stopImpersonate
    by_cases h : s.impersonateActive = true <;> simp [h]
  refine ⟨?_, hstartImp, hstartSpam⟩
  intro s hs
  induction hs with
  | init => simp [initAttackState]
  | startSpam s hr ih =>
      rintro ⟨h1, h2⟩
      rw [hstartSpam s] at h2
      exact Bool.false_ne_true h2
  | startImp a p s hr ih =>
      rintro ⟨h1, h2⟩
      rw [hstartImp a p s] at h1
      exact Bool.false_ne_true h1
  | stopSpam s hr ih =>
      rintro ⟨h1, h2⟩
      simp [stopSpamAttack] at h1
  | stopImp s hr ih =>
      rintro ⟨h1, h2⟩
      simp [stopImpersonate] at h2
  | selectField i s hr ih =>
      rintro ⟨h1, h2⟩
      simp only [setImpSelectedFieldIndex] at h1 h2
      exact ih ⟨h1, h2⟩
  | toggle s hr ih =>
      rintro ⟨h1, h2⟩
      apply ih
      unfold toggleValueLock at h1 h2
      split_ifs at h1 h2 <;> exact ⟨h1, h2⟩
  | tick dec raw now mon s hr ih =>
      rintro ⟨h1, h2⟩
      apply ih
      have hf := updateImpersonate_flags dec raw now mon s
      rw [hf.1] at h1
      rw [hf.2.1] at h2
      exact ⟨h1, h2⟩
  | handler msg s hr ih =>
      rintro ⟨h1, h2⟩
      apply ih
      unfold attackHandlerState at h1 h2
      split_ifs at h1 h2 <;> exact ⟨h1, h2⟩
  | ownSensor own i s hr ih =>
      rintro ⟨h1, h2⟩
      apply ih
      simp only [setImpersonatingOwnSensor] at h1 h2
      exact ⟨h1, h2⟩

/-- Witness for C4 at concrete reachable states: the constructor state
(reachable, both engines idle) and a concrete start of each engine. -/
theorem single_active_attack_session_witness :
    ¬(initAttackState.spamAttackActive = true ∧
      initAttackState.impersonateActive = true) ∧
    (startImpersonate 50 129025 (startSpamAttack initAttackState)
      ).spamAttackActive = false ∧
    (startSpamAttack (startImpersonate 50 129025 initAttackState)
      ).impersonateActive = false :=
  ⟨single_active_attack_session.1 initAttackState ReachableAttack.init,
   single_active_attack_session.2.1 50 129025 (startSpamAttack initAttackState),
   single_active_attack_session.2.2 (startImpersonate 50 129025 initAttackState)⟩

/-! ## Claims C5 and C6: witnesses -/

def c5StaleDev : DeviceInfo :=
  ⟨10, "Device 10", 1000, 0,
   [(60928, ⟨60928, "ISO Addr Claim", 1000, [], [], 0⟩)]⟩

def c5FreshDev : DeviceInfo :=
  ⟨20, "Device 20", 99000, 0,
   [(60928, ⟨60928, "ISO Addr Claim", 1000, [], [], 0⟩),
    (127250, ⟨127250, "Vessel Heading", 1000, [], [], 0⟩)]⟩

def c5EnabledState : MonitorState :=
  ⟨[(10, c5StaleDev), (20, c5FreshDev)], [10, 20], true, 0⟩

def c5DisabledState : MonitorState :=
  ⟨[(10, c5StaleDev)], [10], false, 0⟩

/-- Witness for C5: a disabled sweep leaves a stale directory untouched,
and the fresh device surviving an enabled sweep is indeed within the
timeout. -/
theorem eviction_sweep_spec_witness :
    cleanupStaleEntries 100000 c5DisabledState = c5DisabledState ∧
    sub32 100000 (activity c5FreshDev) ≤ STALE_TIMEOUT_MS :=
  ⟨(eviction_sweep_spec 100000 c5DisabledState).1 rfl,
   (eviction_sweep_spec 100000 c5EnabledState).2 rfl
     (20, prunePgns 100000 c5FreshDev) (by decide)⟩

/-- Witness for C6: the fresh device's address-claim record (last updated
99 s ago, far beyond the 60 s timeout) survives the enabled sweep. -/
theorem claim_record_survives_witness :
    ∃ d2, (20, d2) ∈ (cleanupStaleEntries 100000 c5EnabledState).devices ∧
      (60928, (⟨60928, "ISO Addr Claim", 1000, [], [], 0⟩ : PGNData)) ∈
        d2.pgns :=
  claim_record_survives 100000 c5EnabledState 20 c5FreshDev
    ⟨60928, "ISO Addr Claim", 1000, [], [], 0⟩
    (by decide) (by decide) (by decide) (by decide)

/-! ## Claim C7 -/

/-- Modelled from the spec: the suffix map the claim asserts, with
half-open intervals — "Nav" exactly on [130, 140), "Eng" exactly on
[140, 160), "Pwr" exactly on [170, 180). -/
def specC7Suffix (devFunction : Nat) : String :=
  if 130 ≤ devFunction ∧ devFunction < 140 then " Nav"
  else if 140 ≤ devFunction ∧ devFunction < 160 then " Eng"
  else if 170 ≤ devFunction ∧ devFunction < 180 then " Pwr"
  else ""

/-- C7 (counterexample): the code uses inclusive bounds
(`>= 130 && <= 140`, `>= 140 && <= 160`, `>= 170 && <= 180`), so at the
interval edges it disagrees with the claim's half-open intervals:
function code 140 gets " Nav" (claim says "Eng"), 160 gets " Eng" and
180 gets " Pwr" (claim says no suffix). -/
theorem C7_counterexample :
    claimSuffix 140 = " Nav" ∧ specC7Suffix 140 = " Eng" ∧
    claimSuffix 140 ≠ specC7Suffix 140 ∧
    claimSuffix 160 = " Eng" ∧ specC7Suffix 160 = "" ∧
    claimSuffix 180 = " Pwr" ∧ specC7Suffix 180 = "" := by
  refine ⟨by decide, by decide, by decide, by decide, by decide, by decide,
    by decide⟩

/-- C7 (amended): ingesting an identity claim for a device still carrying
the synthetic default name derives the provisional name
`"Mfr<code><suffix>"`, where the suffix is " Nav" exactly for function
codes in [130, 140], " Eng" exactly for (140, 160], " Pwr" exactly for
[170, 180], and empty otherwise. -/
theorem claim_name_suffix_intervals :
    (∀ fc : Nat,
      (claimSuffix fc = " Nav" ↔ 130 ≤ fc ∧ fc ≤ 140) ∧
      (claimSuffix fc = " Eng" ↔ 141 ≤ fc ∧ fc ≤ 160) ∧
      (claimSuffix fc = " Pwr" ↔ 170 ≤ fc ∧ fc ≤ 180)) ∧
    (∀ (lib : LibParsers) (now : Nat) (msg : N2kMsg) (st : MonitorState)
      (d : DeviceInfo), msg.PGN = 60928 → 8 ≤ msg.DataLen →
      mfind st.devices msg.Source = some d →
      strStartsWith d.name "Device " = true →
      nameAt (handleN2kMessage lib now msg st) msg.Source =
        some ("Mfr" ++ toString ((nameFromBytes msg.Data >>> 21) &&& 2047) ++
          claimSuffix ((nameFromBytes msg.Data >>> 40) &&& 255))) := by
  constructor
  · intro fc
    unfold claimSuffix
    split_ifs with h1 h2 h3
    · exact ⟨⟨fun _ => ⟨h1.1, h1.2⟩, fun _ => rfl⟩,
        ⟨fun hh => absurd hh (by decide), fun hh => (by omega : False).elim⟩,
        ⟨fun hh => absurd hh (by decide), fun hh => (by omega : False).elim⟩⟩
    · exact ⟨⟨fun hh => absurd hh (by decide), fun hh => (by omega : False).elim⟩,
        ⟨fun _ => by omega, fun _ => rfl⟩,
        ⟨fun hh => absurd hh (by decide), fun hh => (by omega : False).elim⟩⟩
    · exact ⟨⟨fun hh => absurd hh (by decide), fun hh => (by omega : False).elim⟩,
        ⟨fun hh => absurd hh (by decide), fun hh => (by omega : False).elim⟩,
        ⟨fun _ => ⟨h3.1, h3.2⟩, fun _ => rfl⟩⟩
    · exact ⟨⟨fun hh => absurd hh (by decide), fun hh => (by omega : False).elim⟩,
        ⟨fun hh => absurd hh (by decide), fun hh => (by omega : False).elim⟩,
        ⟨fun hh => absurd hh (by decide), fun hh => (by omega : False).elim⟩⟩
  · intro lib now msg st d hP hdl hd hsw
    exact handle_claim_derives_name lib now msg st d hP hdl hd hsw

def c7Lib : LibParsers := ⟨fun _ => none, fun _ => none⟩

def c7Msg : N2kMsg := ⟨60928, 50, 6, [0, 0, 0, 0, 0, 135, 0, 0], 8⟩

def c7Device : DeviceInfo := ⟨50, "Device 50", 500, 0, []⟩

def c7State : MonitorState := ⟨[(50, c7Device)], [50], false, 0⟩

/-- Witness for C7's amended theorem: function code 135 (bits 40–47 of the
claimed NAME) yields the " Nav" suffix on a device with the synthetic
default name. -/
theorem claim_name_suffix_intervals_witness :
    (claimSuffix 135 = " Nav" ↔ 130 ≤ 135 ∧ 135 ≤ 140) ∧
    nameAt (handleN2kMessage c7Lib 1000 c7Msg c7State) 50 =
      some ("Mfr" ++ toString ((nameFromBytes c7Msg.Data >>> 21) &&& 2047) ++
        claimSuffix ((nameFromBytes c7Msg.Data >>> 40) &&& 255)) :=
  ⟨(claim_name_suffix_intervals.1 135).1,
   claim_name_suffix_intervals.2 c7Lib 1000 c7Msg c7State c7Device
     (by decide) (by decide) (by decide) (by decide)⟩

/-! ## Claim C8 -/

def c8Lib : LibParsers :=
  ⟨fun _ => none,
   fun m => if m.PGN = 126996 then some ⟨"Device 9"⟩ else none⟩

def c8MsgProd : N2kMsg := ⟨126996, 50, 6, [], 0⟩

def c8MsgClaim : N2kMsg := ⟨60928, 50, 6, [0, 0, 0, 0, 0, 135, 0, 0], 8⟩

def c8State1 : MonitorState :=
  handleN2kMessage c8Lib 1000 c8MsgProd initMonitorState

def c8State2 : MonitorState := handleN2kMessage c8Lib 2000 c8MsgClaim c8State1

/-- C8 (counterexample): a name set from the non-empty, already-trimmed
product-information model ID `"Device 9"` IS overwritten by a subsequent
identity claim, because the heuristic's "still the synthetic default"
test is a `startsWith "Device "` check, which a model ID beginning with
`"Device "` also satisfies. -/
theorem C8_counterexample :
    0 < ("Device 9" : String).length ∧
    strTrim "Device 9" = "Device 9" ∧
    nameAt c8State1 50 = some "Device 9" ∧
    nameAt c8State2 50 = some "Mfr0 Nav" ∧
    nameAt c8State2 50 ≠ some "Device 9" := by
  refine ⟨by decide, by decide, by decide, by decide, by decide⟩

/-- C8 (amended): once a device's name no longer starts with `"Device "` —
in particular once it was set from a non-empty trimmed model ID that
does not itself begin with `"Device "` — no subsequently ingested
identity-claim message changes it; and a product-information message
whose model ID is non-empty always overwrites the stored name with the
trimmed model ID, whatever the claim heuristic had produced. -/
theorem product_name_precedence :
    (∀ (lib : LibParsers) (now : Nat) (msg : N2kMsg) (st : MonitorState)
      (d : DeviceInfo), msg.PGN = 60928 →
      mfind st.devices msg.Source = some d →
      strStartsWith d.name "Device " = false →
      nameAt (handleN2kMessage lib now msg st) msg.Source = some d.name) ∧
    (∀ (lib : LibParsers) (now : Nat) (msg : N2kMsg) (st : MonitorState)
      (pi : ProductInfo), msg.PGN = 126996 →
      lib.prodInfo msg = some pi → 0 < pi.modelID.length →
      nameAt (handleN2kMessage lib now msg st) msg.Source =
        some (strTrim pi.modelID)) :=
  ⟨fun lib now msg st d hP hd hpre =>
    handle_claim_preserves_name lib now msg st d hP hd hpre,
   fun lib now msg st pi hP hpi hlen =>
    handle_prod_sets_name lib now msg st pi hP hpi hlen⟩

def c8GoodLib : LibParsers :=
  ⟨fun _ => none,
   fun m => if m.PGN = 126996 then some ⟨"GPS Unit"⟩ else none⟩

def c8GoodMsgProd : N2kMsg := ⟨126996, 50, 6, [], 0⟩

def c8GoodState1 : MonitorState :=
  handleN2kMessage c8GoodLib 1000 c8GoodMsgProd initMonitorState

def c8GoodDevice : DeviceInfo := ⟨50, "GPS Unit", 1000, 0, []⟩

/-- Witness for C8's amended theorem: a product-info name `"GPS Unit"` is
set by the product-information ingest, and a later identity claim leaves
it unchanged. -/
theorem product_name_precedence_witness :
    nameAt c8GoodState1 50 = some (strTrim "GPS Unit") ∧
    nameAt (handleN2kMessage c8GoodLib 2000 c8MsgClaim
      ⟨[(50, c8GoodDevice)], [50], false, 0⟩) 50 = some "GPS Unit" :=
  ⟨product_name_precedence.2 c8GoodLib 1000 c8GoodMsgProd initMonitorState
     ⟨"GPS Unit"⟩ (by decide) (by decide) (by decide),
   product_name_precedence.1 c8GoodLib 2000 c8MsgClaim
     ⟨[(50, c8GoodDevice)], [50], false, 0⟩ c8GoodDevice (by decide)
     (by decide) (by decide)⟩

/-! ## Claim C9 -/

/-- C9: while impersonation is active, a locked field's transmitted value
is the stored lock snapshot — identical on every tick and independent of
the live analog input (and ticks never alter the lock arrays) — while
the unlocked selected field's transmitted value is the affine map
`min + (raw / 1023) * (max - min)` of the normalised live sample, which
lies within `[min, max]` whenever the sample is in range and
`min ≤ max`. -/
theorem lock_invariance_and_affine_map :
    (∀ (s : AttackState) (raw raw2 : ℚ),
      s.impSelectedFieldIndex < MAX_IMP_FIELDS →
      s.impFieldLocked.getD s.impSelectedFieldIndex false = true →
      tickFieldValue raw s = tickFieldValue raw2 s ∧
      tickFieldValue raw s =
        s.impFieldLockedValues.getD s.impSelectedFieldIndex 0) ∧
    (∀ (s : AttackState) (fieldIndex : Nat) (v v2 : ℚ) (idx : Nat)
      (orig orig2 : ℚ),
      idx ≠ fieldIndex → idx < MAX_IMP_FIELDS →
      s.impFieldLocked.getD idx false = true →
      getFieldValue s fieldIndex v idx orig =
        s.impFieldLockedValues.getD idx 0 ∧
      getFieldValue s fieldIndex v idx orig =
        getFieldValue s fieldIndex v2 idx orig2) ∧
    (∀ (dec : Nat → List Nat → Option (List ℚ)) (raw : ℚ) (now : Nat)
      (mon : MonitorState) (s : AttackState),
      (updateImpersonate dec raw now mon s).1.impFieldLocked =
        s.impFieldLocked ∧
      (updateImpersonate dec raw now mon s).1.impFieldLockedValues =
        s.impFieldLockedValues) ∧
    (∀ (s : AttackState) (raw : ℚ),
      ¬(s.impSelectedFieldIndex < MAX_IMP_FIELDS ∧
        s.impFieldLocked.getD s.impSelectedFieldIndex false = true) →
      tickFieldValue raw s =
        s.impFieldMin + (raw / 1023) * (s.impFieldMax - s.impFieldMin) ∧
      (0 ≤ raw → raw ≤ 1023 → s.impFieldMin ≤ s.impFieldMax →
        s.impFieldMin ≤ tickFieldValue raw s ∧
        tickFieldValue raw s ≤ s.impFieldMax)) := by
  refine ⟨?_, ?_, ?_, ?_⟩
  · intro s raw raw2 hlt hlock
    unfold tickFieldValue
    simp at hlock
    simp [hlt, hlock]
  · intro s fieldIndex v v2 idx orig orig2 hne hlt hlock
    unfold getFieldValue
    simp at hlock
    simp [hne, hlt, hlock]
  · intro dec raw now mon s
    have hf := updateImpersonate_flags dec raw now mon s
    exact ⟨hf.2.2.1, hf.2.2.2.1⟩
  · intro s raw hnl
    have hval : tickFieldValue raw s =
        s.impFieldMin + (raw / 1023) * (s.impFieldMax - s.impFieldMin) := by
      unfold tickFieldValue
      rw [if_neg]
      intro hc
      exact hnl ⟨hc.1, hc.2⟩
    refine ⟨hval, ?_⟩
    intro h0 h1 hmm
    rw [hval]
    have ht0 : (0 : ℚ) ≤ raw / 1023 := by positivity
    have ht1 : raw / 1023 ≤ 1 := by
      rw [div_le_one (by norm_num : (0 : ℚ) < 1023)]
      linarith
    constructor
    · nlinarith [mul_nonneg ht0 (sub_nonneg.mpr hmm)]
    · nlinarith [mul_le_mul_of_nonneg_right ht1 (sub_nonneg.mpr hmm)]

def c9LockedState : AttackState :=
  { startImpersonate 50 129025 initAttackState with
    impSelectedFieldIndex := 1
    impFieldLocked := (List.replicate MAX_IMP_FIELDS false).set 1 true
    impFieldLockedValues := (List.replicate MAX_IMP_FIELDS (0 : ℚ)).set 1 10 }

def c9UnlockedState : AttackState := startImpersonate 50 129025 initAttackState

/-- Witness for C9 at concrete states: a locked field 1 transmits its
snapshot 10 on any sample, and the unlocked field 0 of PGN 129025 maps
sample 512 affinely into `[-90, 90]`. -/
theorem lock_invariance_and_affine_map_witness :
    (tickFieldValue 100 c9LockedState = tickFieldValue 900 c9LockedState ∧
      tickFieldValue 100 c9LockedState =
        c9LockedState.impFieldLockedValues.getD 1 0) ∧
    (tickFieldValue 512 c9UnlockedState =
        c9UnlockedState.impFieldMin + ((512 : ℚ) / 1023) *
          (c9UnlockedState.impFieldMax - c9UnlockedState.impFieldMin) ∧
      c9UnlockedState.impFieldMin ≤ tickFieldValue 512 c9UnlockedState ∧
      tickFieldValue 512 c9UnlockedState ≤ c9UnlockedState.impFieldMax) := by
  have h1 := lock_invariance_and_affine_map.1 c9LockedState 100 900
    (by decide) (by decide)
  have h2 := lock_invariance_and_affine_map.2.2.2 c9UnlockedState 512
    (by decide)
  have h3 := h2.2 (by norm_num) (by norm_num) (by decide)
  exact ⟨⟨h1.1, h1.2⟩, ⟨h2.1, h3.1, h3.2⟩⟩

/-! ## Claim C10 -/

def c10State : AttackState := startImpersonate 50 129025 initAttackState

/-- C10 (counterexample): selecting a field index that is out of range for
the current target PGN is NOT a no-op — `setImpSelectedFieldIndex` has
no bounds check: selecting index 7 against PGN 129025 (whose Registry
field count is 2) stores the index and loads the fallback range
`(0, 100)`, violating the `selectedFieldIndex < fieldCount` invariant. -/
theorem C10_counterexample :
    c10State.impSelectedFieldIndex = 0 ∧
    getPGNFieldCount 129025 = 2 ∧
    (setImpSelectedFieldIndex 7 c10State).impSelectedFieldIndex = 7 ∧
    setImpSelectedFieldIndex 7 c10State ≠ c10State ∧
    (setImpSelectedFieldIndex 7 c10State).impFieldMin = 0 ∧
    (setImpSelectedFieldIndex 7 c10State).impFieldMax = 100 ∧
    ¬ (setImpSelectedFieldIndex 7 c10State).impSelectedFieldIndex <
        getPGNFieldCount 129025 := by
  refine ⟨by decide, by decide, by decide, ?_, by decide, by decide, by decide⟩
  intro h
  have h7 := congrArg AttackState.impSelectedFieldIndex h
  revert h7
  decide

/-- C10 (amended): `toggleValueLock` is bounds-checked only against the
fixed lock-array capacity `MAX_IMP_FIELDS = 16` — with a selected index
≥ 16 it is a no-op, and it never grows the lock arrays, so no
out-of-capacity array write occurs — while `setImpSelectedFieldIndex`
performs no bounds check at all: it stores any index and loads the
Registry range, which falls back to `(0, 100)` when the index is out of
range for the target PGN; the invariant that the selected index stays
below the Registry field count is not maintained. -/
theorem lock_select_bounds_behavior :
    (∀ s : AttackState, MAX_IMP_FIELDS ≤ s.impSelectedFieldIndex →
      toggleValueLock s = s) ∧
    (∀ s : AttackState,
      (toggleValueLock s).impFieldLocked.length = s.impFieldLocked.length ∧
      (toggleValueLock s).impFieldLockedValues.length =
        s.impFieldLockedValues.length) ∧
    (∀ (idx : Nat) (s : AttackState),
      (setImpSelectedFieldIndex idx s).impSelectedFieldIndex = idx) ∧
    (∀ (idx : Nat) (s : AttackState), getPGNField s.impTargetPGN idx = none →
      (setImpSelectedFieldIndex idx s).impFieldMin = 0 ∧
      (setImpSelectedFieldIndex idx s).impFieldMax = 100) := by
  refine ⟨?_, ?_, ?_, ?_⟩
  · intro s h
    unfold toggleValueLock
    rw [if_neg (by omega)]
  · intro s
    unfold toggleValueLock
    split_ifs <;> simp [List.length_set]
  · intro idx s
    rfl
  · intro idx s h
    unfold setImpSelectedFieldIndex getFieldRange getPGNFieldRange
    rw [h]
    exact ⟨rfl, rfl⟩

/-- Witness for C10's amended theorem: toggling with selected index 20 is
a no-op, the lock arrays keep length 16, and selecting index 7 against
PGN 129025 stores the index with the `(0, 100)` fallback range. -/
theorem lock_select_bounds_behavior_witness :
    toggleValueLock { c10State with impSelectedFieldIndex := 20 } =
      { c10State with impSelectedFieldIndex := 20 } ∧
    (toggleValueLock c10State).impFieldLocked.length =
      c10State.impFieldLocked.length ∧
    (setImpSelectedFieldIndex 7 c10State).impSelectedFieldIndex = 7 ∧
    ((setImpSelectedFieldIndex 7 c10State).impFieldMin = 0 ∧
      (setImpSelectedFieldIndex 7 c10State).impFieldMax = 100) :=
  ⟨lock_select_bounds_behavior.1 _ (by decide),
   (lock_select_bounds_behavior.2.1 c10State).1,
   lock_select_bounds_behavior.2.2.1 7 c10State,
   lock_select_bounds_behavior.2.2.2 7 c10State (by decide)⟩
